import Mathlib

/-!
Verification development for the FraudGuard ML service (src/ml-service).

The Python source is shallowly embedded: scores, amounts and processing
times are modelled as rationals (the source computes with IEEE floats,
but every comparison the claims touch is against literals that behave
identically over ℚ); the per-user model registry and the monitoring
state are explicit state records; the sklearn isolation-forest decision
value and the ensemble fraud probability are opaque numeric inputs to
detection (their numeric values come from fitted models outside the
embedded fragment, but everything the code does WITH them is embedded).

Two monitor classes exist in the repository: the one defined inline in
`app.py` (the instance the service actually uses, `monitor =
FraudGuardMonitor()` in app.py) and the fuller one in
`utils/monitoring.py`.  Both are embedded, in namespaces `AppMonitor`
and `UtilsMonitor`.
-/

namespace FraudGuard

/-- Transaction payload, from the pydantic `Transaction` model in app.py
(fields `location`, `merchant_id`, `transaction_id` are not read by any
embedded code path and are omitted). -/
structure Transaction where
  amount : ℚ
  merchant_category : String
  hour : ℕ
  day_of_week : ℕ
deriving DecidableEq, Repr

/-- User behavioural profile, from `create_comprehensive_profile` in
app.py.  Only the fields read by the embedded code paths
(`_apply_business_rules` reads `avg_amount`) are modelled. -/
structure Profile where
  user_id : String
  total_transactions : ℕ
  avg_amount : ℚ
deriving DecidableEq, Repr

/-- Risk tiers produced by `detect_advanced_fraud` in app.py
(`UNKNOWN` is the tier of the early return for an untrained user). -/
inductive RiskLevel where
  | LOW
  | MEDIUM
  | HIGH
  | CRITICAL
  | UNKNOWN
deriving DecidableEq, Repr

/-- The `model_scores` sub-dictionary of a detection result (app.py,
`detect_advanced_fraud`). -/
structure ModelScores where
  isolation_forest : ℚ
  business_rules : ℚ
  ensemble : Option ℚ
  combined : ℚ
deriving DecidableEq, Repr

/-- A detection result, from the dictionary built by
`detect_advanced_fraud` in app.py.  `model_scores` is `none` for the
early untrained-user return, whose dictionary has no such key.
`shap_analysis`, `ensemble_analysis` and `processing_time_ms` are not
read by any claim and are omitted. -/
structure FraudResult where
  anomaly_score : ℚ
  is_suspicious : Bool
  risk_level : RiskLevel
  explanation : List String
  confidence : ℚ
  model_scores : Option ModelScores
deriving DecidableEq, Repr

/-- `_apply_business_rules` from app.py: a running score accumulated by
five independent heuristics, then capped at 1.0. -/
def apply_business_rules (t : Transaction) (profile : Profile) : ℚ :=
  let rule_score : ℚ := 0
  let rule_score := if 5000 < t.amount then rule_score + 3/10 else rule_score
  let rule_score := if profile.avg_amount * 10 < t.amount then rule_score + 4/10 else rule_score
  let rule_score := if t.hour ∈ [0, 1, 2, 3, 4, 5] then rule_score + 1/5 else rule_score
  let rule_score :=
    if t.merchant_category ∈ ["electronics", "jewelry", "travel", "cash_advance"] then
      rule_score + 1/5
    else rule_score
  let rule_score :=
    if t.day_of_week ∈ [5, 6] ∧ t.hour ∈ [22, 23, 0, 1, 2] then rule_score + 3/20
    else rule_score
  min 1 rule_score

/-- The tier / is_suspicious cascade at the end of `detect_advanced_fraud`
in app.py: strict comparisons against 0.9, 0.7, 0.5. -/
def risk_level_of (final_score : ℚ) : RiskLevel × Bool :=
  if 9/10 < final_score then (RiskLevel.CRITICAL, true)
  else if 7/10 < final_score then (RiskLevel.HIGH, true)
  else if 1/2 < final_score then (RiskLevel.MEDIUM, true)
  else (RiskLevel.LOW, false)

/-- An entry of the `high_risk_transactions` list built by
`record_transaction` (the wall-clock `timestamp` field is outside the
embedded fragment and omitted). -/
structure Incident where
  user_id : String
  risk_level : RiskLevel
  anomaly_score : ℚ
deriving DecidableEq, Repr

/-- The `self.metrics` dictionary of `FraudGuardMonitor` (identical in
app.py and utils/monitoring.py).  The `defaultdict` counters are total
functions defaulting to 0; `processing_times` is a `deque(maxlen=1000)`
kept newest-last.  `false_positives` and `model_predictions` are never
read by the embedded paths and are omitted. -/
structure Metrics where
  total_requests : ℕ
  fraud_detected : ℕ
  error_count : ℕ
  processing_times : List ℚ
  hourly_requests : ℕ → ℕ
  hourly_fraud : ℕ → ℕ
  user_activity : String → ℕ
  high_risk_transactions : List Incident

/-- The `self.alerts` boolean flags of `FraudGuardMonitor`. -/
structure Alerts where
  high_fraud_rate : Bool
  slow_response : Bool
  model_errors : Bool
  unusual_activity : Bool
deriving DecidableEq, Repr

/-- Full monitor state: metrics plus alert flags. -/
structure MonitorState where
  metrics : Metrics
  alerts : Alerts

/-- `FraudGuardMonitor.__init__`: all counters zero, lists empty, all
alert flags off. -/
def initial_monitor : MonitorState :=
  { metrics :=
      { total_requests := 0
        fraud_detected := 0
        error_count := 0
        processing_times := []
        hourly_requests := fun _ => 0
        hourly_fraud := fun _ => 0
        user_activity := fun _ => 0
        high_risk_transactions := [] }
    alerts :=
      { high_fraud_rate := false
        slow_response := false
        model_errors := false
        unusual_activity := false } }

/-- `deque(maxlen=cap).append x`: append on the right, evicting from the
left so that the length never exceeds `cap`. -/
def dequeAppend (cap : ℕ) (w : List ℚ) (x : ℚ) : List ℚ :=
  if w.length < cap then w ++ [x] else w.drop (w.length + 1 - cap) ++ [x]

/-- Pointwise bump of a `defaultdict(int)` counter keyed by user id. -/
def bumpUser (f : String → ℕ) (k : String) : String → ℕ :=
  fun x => if x = k then f x + 1 else f x

/-- Pointwise bump of a `defaultdict` counter keyed by hour. -/
def bumpHour (f : ℕ → ℕ) (k : ℕ) : ℕ → ℕ :=
  fun x => if x = k then f x + 1 else f x

/-- The metrics mutation performed by `record_transaction` (identical in
app.py and utils/monitoring.py) before `_check_alerts` runs: bump the
request/user counters, push the processing time into the rolling window,
count fraud and stash a high-risk incident when suspicious, and bump the
hourly stats for the current wall-clock hour. -/
def record_metrics (m : Metrics) (user_id : String) (result : FraudResult)
    (processing_time : ℚ) (wall_hour : ℕ) : Metrics :=
  let m :=
    { m with
      total_requests := m.total_requests + 1
      user_activity := bumpUser m.user_activity user_id
      processing_times := dequeAppend 1000 m.processing_times processing_time }
  let m :=
    if result.is_suspicious then
      { m with
        fraud_detected := m.fraud_detected + 1
        high_risk_transactions :=
          if result.risk_level ∈ [RiskLevel.HIGH, RiskLevel.CRITICAL] then
            m.high_risk_transactions ++
              [{ user_id := user_id
                 risk_level := result.risk_level
                 anomaly_score := result.anomaly_score }]
          else m.high_risk_transactions }
    else m
  { m with
    hourly_requests := bumpHour m.hourly_requests wall_hour
    hourly_fraud :=
      if result.is_suspicious then bumpHour m.hourly_fraud wall_hour else m.hourly_fraud }

/-- Average of the most recent 50 entries of the processing-time window,
as computed by the slow-response check in utils/monitoring.py
(`sum(list(...)[-50:]) / 50`). -/
def avgLast50 (l : List ℚ) : ℚ :=
  ((l.drop (l.length - 50)).sum) / 50

namespace AppMonitor

/-- `thresholds['min_requests_for_alert']` of the monitor defined inline
in app.py — the instance the running service uses. -/
def min_requests_for_alert : ℕ := 50

/-- `FraudGuardMonitor._check_alerts` as defined inline in app.py: it
evaluates nothing below 50 total requests, and checks ONLY the
high-fraud-rate condition (the slow-response and error-rate blocks of
utils/monitoring.py are absent here).  The boolean output records
whether `_trigger_alert` fired. -/
def check_alerts (s : MonitorState) : MonitorState × Bool :=
  if s.metrics.total_requests < min_requests_for_alert then (s, false)
  else
    if 3/20 < (s.metrics.fraud_detected : ℚ) / (s.metrics.total_requests : ℚ) then
      if s.alerts.high_fraud_rate then (s, false)
      else ({ s with alerts := { s.alerts with high_fraud_rate := true } }, true)
    else ({ s with alerts := { s.alerts with high_fraud_rate := false } }, false)

/-- `FraudGuardMonitor.record_transaction` (app.py): record metrics,
then re-evaluate alerts.  Returns the new state and whether an alert
fired. -/
def record_transaction (s : MonitorState) (user_id : String) (result : FraudResult)
    (processing_time : ℚ) (wall_hour : ℕ) : MonitorState × Bool :=
  check_alerts
    { s with metrics := record_metrics s.metrics user_id result processing_time wall_hour }

/-- `FraudGuardMonitor.record_error` (app.py): bump the error counter,
then re-evaluate alerts. -/
def record_error (s : MonitorState) : MonitorState × Bool :=
  check_alerts { s with metrics := { s.metrics with error_count := s.metrics.error_count + 1 } }

end AppMonitor

namespace UtilsMonitor

/-- `thresholds['min_requests_for_alert']` of the monitor in
utils/monitoring.py: 100, not the 50 of the app.py copy. -/
def min_requests_for_alert : ℕ := 100

/-- The high-fraud-rate block of `_check_alerts` in utils/monitoring.py:
edge-triggered set on `fraud_rate > 0.15`, silent clear otherwise.
Returns the names of the alerts that fired. -/
def fraudStep (s : MonitorState) : MonitorState × List String :=
  if 3/20 < (s.metrics.fraud_detected : ℚ) / (s.metrics.total_requests : ℚ) then
    if s.alerts.high_fraud_rate then (s, [])
    else ({ s with alerts := { s.alerts with high_fraud_rate := true } }, ["high_fraud_rate"])
  else ({ s with alerts := { s.alerts with high_fraud_rate := false } }, [])

/-- The slow-response block of `_check_alerts` in utils/monitoring.py:
only evaluated once more than 50 processing times are recorded, over the
average of the most recent 50. -/
def slowStep (s : MonitorState) : MonitorState × List String :=
  if 50 < s.metrics.processing_times.length then
    if (200 : ℚ) < avgLast50 s.metrics.processing_times then
      if s.alerts.slow_response then (s, [])
      else ({ s with alerts := { s.alerts with slow_response := true } }, ["slow_response"])
    else ({ s with alerts := { s.alerts with slow_response := false } }, [])
  else (s, [])

/-- The error-rate block of `_check_alerts` in utils/monitoring.py:
edge-triggered set on `error_count / total_requests > 0.05`. -/
def errorStep (s : MonitorState) : MonitorState × List String :=
  if 1/20 < (s.metrics.error_count : ℚ) / (s.metrics.total_requests : ℚ) then
    if s.alerts.model_errors then (s, [])
    else ({ s with alerts := { s.alerts with model_errors := true } }, ["model_errors"])
  else ({ s with alerts := { s.alerts with model_errors := false } }, [])

/-- `FraudGuardMonitor._check_alerts` (utils/monitoring.py): below 100
total requests nothing is evaluated; otherwise the three blocks run in
sequence. -/
def check_alerts (s : MonitorState) : MonitorState × List String :=
  if s.metrics.total_requests < min_requests_for_alert then (s, [])
  else
    let p1 := fraudStep s
    let p2 := slowStep p1.1
    let p3 := errorStep p2.1
    (p3.1, p1.2 ++ p2.2 ++ p3.2)

/-- `FraudGuardMonitor.record_transaction` (utils/monitoring.py): the
metrics mutation is identical to the app.py copy; only `_check_alerts`
differs. -/
def record_transaction (s : MonitorState) (user_id : String) (result : FraudResult)
    (processing_time : ℚ) (wall_hour : ℕ) : MonitorState × List String :=
  check_alerts
    { s with metrics := record_metrics s.metrics user_id result processing_time wall_hour }

/-- `FraudGuardMonitor.record_error` (utils/monitoring.py). -/
def record_error (s : MonitorState) : MonitorState × List String :=
  check_alerts { s with metrics := { s.metrics with error_count := s.metrics.error_count + 1 } }

end UtilsMonitor

/-- The per-user registry of `FraudGuardML`.  In the source `profiles`,
`models`, `scalers` and `training_data` are separate dictionaries, but
`create_comprehensive_profile` always writes them together under the
same key, so a single association list keyed by user id models the
registry; newest binding first, mirroring dictionary overwrite. -/
structure EngineState where
  models : List (String × Profile)
deriving DecidableEq, Repr

/-- Registry lookup (`user_id in self.models` / `self.profiles[user_id]`). -/
def lookupProfile (st : EngineState) (user_id : String) : Option Profile :=
  st.models.lookup user_id

/-- The profile statistics of `create_comprehensive_profile` (app.py)
for the fields the embedded paths read: transaction count and mean
amount (`df['amount'].mean()`). -/
def create_comprehensive_profile (user_id : String) (txs : List Transaction) : Profile :=
  { user_id := user_id
    total_transactions := txs.length
    avg_amount := ((txs.map fun t => t.amount).sum) / (txs.length : ℚ) }

/-- The typed failure of the `/train-user` endpoint: app.py raises
`HTTPException(status_code=400, detail="Need at least 15 transactions to
train reliable behavioral model")` — a client error. -/
inductive TrainError where
  | insufficientData
deriving DecidableEq, Repr

/-- `train_user_model` (the `/train-user` handler in app.py): reject
fewer than 15 transactions with a 400 before anything is created;
otherwise build the profile and register the per-user bundle.  The
registry is only extended in the success branch — on the error branch
the caller's state is untouched. -/
def train_user_model (st : EngineState) (user_id : String) (txs : List Transaction) :
    Except TrainError EngineState :=
  if txs.length < 15 then Except.error TrainError.insufficientData
  else Except.ok { models := (user_id, create_comprehensive_profile user_id txs) :: st.models }

/-- The early-return dictionary of `detect_advanced_fraud` for a user
with no trained model.  The source dictionary carries no `model_scores`
key, hence `none`. -/
def unknown_user_result : FraudResult :=
  { anomaly_score := 0
    is_suspicious := false
    risk_level := RiskLevel.UNKNOWN
    explanation := ["User profile not found - please train model first"]
    confidence := 0
    model_scores := none }

/-- `FraudGuardML.detect_advanced_fraud` (app.py) together with its
`monitor.record_transaction` side effect on the app.py monitor.

Opaque numeric inputs standing for the fitted sklearn models:
`isolation_score` is `model.decision_function(...)[0]` and `predicted`
is the `ensemble_score` of `predict_ensemble` (`none` when that call
returned `None` or raised); `ensemble_trained` is the
`self.ensemble_trained[user_id]` flag guarding the ensemble call.
`wall_hour` and `processing_time` stand for the wall-clock reads.
The human-readable explanation list and the SHAP analysis are rendering
of the scores and are not modelled (no claim reads them); the
explanation field carries a placeholder. -/
def detect_advanced_fraud (st : EngineState) (user_id : String) (isolation_score : ℚ)
    (ensemble_trained : Bool) (predicted : Option ℚ) (t : Transaction)
    (mon : MonitorState) (wall_hour : ℕ) (processing_time : ℚ) :
    FraudResult × MonitorState :=
  match lookupProfile st user_id with
  | none => (unknown_user_result, mon)
  | some profile =>
    let normalized_score : ℚ := max 0 (min 1 (1/2 - isolation_score))
    let rule_score := apply_business_rules t profile
    let ensemble_result : Option ℚ := if ensemble_trained then predicted else none
    let final_score : ℚ :=
      match ensemble_result with
      | none => normalized_score * (7/10) + rule_score * (3/10)
      | some e => e
    let tier := risk_level_of final_score
    let confidence := |final_score - 1/2| * 2
    let result : FraudResult :=
      { anomaly_score := final_score
        is_suspicious := tier.2
        risk_level := tier.1
        explanation := ["explanations not modelled"]
        confidence := confidence
        model_scores := some
          { isolation_forest := normalized_score
            business_rules := rule_score
            ensemble := if ensemble_result.isSome then some final_score else none
            combined := final_score } }
    (result, (AppMonitor.record_transaction mon user_id result processing_time wall_hour).1)

/-! Concrete fixtures used in trace theorems and witnesses. -/

/-- A suspicious MEDIUM-tier result (`risk_level_of` output for a score
of 0.6), fed to the monitor in the all-suspicious alert trace. -/
def suspicious_medium_result : FraudResult :=
  { anomaly_score := 3/5
    is_suspicious := true
    risk_level := RiskLevel.MEDIUM
    explanation := []
    confidence := 1/5
    model_scores := none }

/-- A suspicious HIGH-tier result, fed to the monitor in the high-risk
incident trace. -/
def high_risk_result : FraudResult :=
  { anomaly_score := 4/5
    is_suspicious := true
    risk_level := RiskLevel.HIGH
    explanation := []
    confidence := 3/5
    model_scores := none }

/-- Feed `n` consecutive all-suspicious transactions to the app.py
monitor from its initial state; returns the final state and how many
times an alert fired along the way. -/
def run_suspicious : ℕ → MonitorState × ℕ
  | 0 => (initial_monitor, 0)
  | n + 1 =>
    let p := run_suspicious n
    let q := AppMonitor.record_transaction p.1 "u1" suspicious_medium_result 1 12
    (q.1, p.2 + if q.2 then 1 else 0)

/-- Feed `n` consecutive HIGH-risk transactions to the app.py monitor
from its initial state. -/
def run_high_risk : ℕ → MonitorState
  | 0 => initial_monitor
  | n + 1 => (AppMonitor.record_transaction (run_high_risk n) "u1" high_risk_result 1 12).1

/-- A monitor state past both minimum-request thresholds, with 51
recorded processing times of 1000 ms each and an error on every request:
both the slow-response and the error-rate conditions hold. -/
def stressed_state : MonitorState :=
  { metrics :=
      { total_requests := 100
        fraud_detected := 0
        error_count := 100
        processing_times := List.replicate 51 1000
        hourly_requests := fun _ => 0
        hourly_fraud := fun _ => 0
        user_activity := fun _ => 0
        high_risk_transactions := [] }
    alerts :=
      { high_fraud_rate := false
        slow_response := false
        model_errors := false
        unusual_activity := false } }

/-- Like `stressed_state` but one transaction short of the
utils/monitoring.py minimum, with 50 processing times recorded: the next
`record_transaction` crosses both thresholds. -/
def utils_stress_state : MonitorState :=
  { metrics :=
      { total_requests := 99
        fraud_detected := 0
        error_count := 99
        processing_times := List.replicate 50 1000
        hourly_requests := fun _ => 0
        hourly_fraud := fun _ => 0
        user_activity := fun _ => 0
        high_risk_transactions := [] }
    alerts :=
      { high_fraud_rate := false
        slow_response := false
        model_errors := false
        unusual_activity := false } }

/-- `_check_alerts` in app.py only flips alert flags: the metrics
dictionary is untouched. -/
theorem AppMonitor.check_alerts_metrics (s : MonitorState) :
    (AppMonitor.check_alerts s).1.metrics = s.metrics := by
  unfold AppMonitor.check_alerts
  split_ifs <;> rfl

/-- After `n` HIGH-risk records the app.py monitor's incident list has
exactly `n` entries: nothing ever evicts from it. -/
theorem run_high_risk_length (n : ℕ) :
    ((run_high_risk n).metrics.high_risk_transactions).length = n := by
  induction n with
  | zero => rfl
  | succ n ih =>
    show ((AppMonitor.record_transaction (run_high_risk n) "u1" high_risk_result 1 12).1.metrics.high_risk_transactions).length = n + 1
    rw [AppMonitor.record_transaction, AppMonitor.check_alerts_metrics]
    simp [record_metrics, high_risk_result, ih]

/-- A trained user's profile with a mean spend of 100. -/
def profile0 : Profile :=
  { user_id := "u1", total_transactions := 15, avg_amount := 100 }

/-- An unremarkable daytime grocery transaction (no rule triggers). -/
def tx_normal : Transaction :=
  { amount := 50, merchant_category := "grocery", hour := 12, day_of_week := 2 }

/-- A transaction triggering every business rule against `profile0`. -/
def tx_risky : Transaction :=
  { amount := 12000, merchant_category := "jewelry", hour := 2, day_of_week := 6 }

/-- An engine with no trained users. -/
def st_empty : EngineState := { models := [] }

/-- An engine with the single trained user "u1". -/
def st_one : EngineState := { models := [("u1", profile0)] }

/-! Supporting lemmas about the monitor embeddings. -/

theorem record_metrics_total (m : Metrics) (uid : String) (r : FraudResult) (pt : ℚ) (wh : ℕ) :
    (record_metrics m uid r pt wh).total_requests = m.total_requests + 1 := by
  simp only [record_metrics]
  split <;> rfl

theorem record_metrics_fraud (m : Metrics) (uid : String) (r : FraudResult) (pt : ℚ) (wh : ℕ) :
    (record_metrics m uid r pt wh).fraud_detected =
      m.fraud_detected + (if r.is_suspicious then 1 else 0) := by
  simp only [record_metrics]
  split <;> simp_all

theorem record_metrics_error (m : Metrics) (uid : String) (r : FraudResult) (pt : ℚ) (wh : ℕ) :
    (record_metrics m uid r pt wh).error_count = m.error_count := by
  simp only [record_metrics]
  split <;> rfl

theorem record_metrics_times (m : Metrics) (uid : String) (r : FraudResult) (pt : ℚ) (wh : ℕ) :
    (record_metrics m uid r pt wh).processing_times = dequeAppend 1000 m.processing_times pt := by
  simp only [record_metrics]
  split <;> rfl

theorem record_metrics_high_risk (m : Metrics) (uid : String) (r : FraudResult) (pt : ℚ)
    (wh : ℕ) :
    (record_metrics m uid r pt wh).high_risk_transactions =
      (if r.is_suspicious ∧ r.risk_level ∈ [RiskLevel.HIGH, RiskLevel.CRITICAL] then
        m.high_risk_transactions ++
          [{ user_id := uid, risk_level := r.risk_level, anomaly_score := r.anomaly_score }]
      else m.high_risk_transactions) := by
  simp only [record_metrics]
  split <;> split_ifs <;> simp_all

theorem AppMonitor.check_alerts_below (s : MonitorState)
    (h : s.metrics.total_requests < AppMonitor.min_requests_for_alert) :
    AppMonitor.check_alerts s = (s, false) := by
  unfold AppMonitor.check_alerts
  rw [if_pos h]

theorem AppMonitor.check_alerts_first_fire (s : MonitorState)
    (h : AppMonitor.min_requests_for_alert ≤ s.metrics.total_requests)
    (hrate : 3/20 < (s.metrics.fraud_detected : ℚ) / (s.metrics.total_requests : ℚ))
    (hflag : s.alerts.high_fraud_rate = false) :
    AppMonitor.check_alerts s =
      ({ s with alerts := { s.alerts with high_fraud_rate := true } }, true) := by
  unfold AppMonitor.check_alerts
  rw [if_neg (by omega), if_pos hrate, if_neg (by simp [hflag])]

theorem AppMonitor.check_alerts_no_refire (s : MonitorState)
    (h : AppMonitor.min_requests_for_alert ≤ s.metrics.total_requests)
    (hrate : 3/20 < (s.metrics.fraud_detected : ℚ) / (s.metrics.total_requests : ℚ))
    (hflag : s.alerts.high_fraud_rate = true) :
    AppMonitor.check_alerts s = (s, false) := by
  unfold AppMonitor.check_alerts
  rw [if_neg (by omega), if_pos hrate, if_pos hflag]

theorem AppMonitor.check_alerts_clear (s : MonitorState)
    (h : AppMonitor.min_requests_for_alert ≤ s.metrics.total_requests)
    (hrate : (s.metrics.fraud_detected : ℚ) / (s.metrics.total_requests : ℚ) ≤ 3/20) :
    AppMonitor.check_alerts s =
      ({ s with alerts := { s.alerts with high_fraud_rate := false } }, false) := by
  unfold AppMonitor.check_alerts
  rw [if_neg (by omega), if_neg (not_lt.mpr hrate)]

theorem AppMonitor.record_transaction_def (s : MonitorState) (uid : String) (r : FraudResult)
    (pt : ℚ) (wh : ℕ) :
    AppMonitor.record_transaction s uid r pt wh =
      AppMonitor.check_alerts
        { s with metrics := record_metrics s.metrics uid r pt wh } := rfl

/-- Closed form of the all-suspicious trace on the app.py monitor: after
`n` records, `n` requests and `n` frauds are counted, the
high-fraud-rate flag is set exactly from the 50th record on, and the
alert has fired exactly once iff the 50th record was reached. -/
theorem run_suspicious_spec (n : ℕ) :
    (run_suspicious n).1.metrics.total_requests = n ∧
    (run_suspicious n).1.metrics.fraud_detected = n ∧
    (run_suspicious n).1.alerts.high_fraud_rate = decide (50 ≤ n) ∧
    (run_suspicious n).2 = (if 50 ≤ n then 1 else 0) := by
  induction n with
  | zero =>
    exact ⟨rfl, rfl, by simp [run_suspicious, initial_monitor], by simp [run_suspicious]⟩
  | succ n ih =>
    obtain ⟨ht, hf, ha, hc⟩ := ih
    have hstep : run_suspicious (n + 1) =
        ((AppMonitor.record_transaction (run_suspicious n).1 "u1" suspicious_medium_result 1 12).1,
          (run_suspicious n).2 +
            if (AppMonitor.record_transaction (run_suspicious n).1 "u1"
                suspicious_medium_result 1 12).2 then 1 else 0) := rfl
    have hmt :
        (record_metrics (run_suspicious n).1.metrics "u1"
          suspicious_medium_result 1 12).total_requests = n + 1 := by
      rw [record_metrics_total, ht]
    have hmf :
        (record_metrics (run_suspicious n).1.metrics "u1"
          suspicious_medium_result 1 12).fraud_detected = n + 1 := by
      rw [record_metrics_fraud, hf]
      simp [suspicious_medium_result]
    by_cases h50 : n + 1 < 50
    · have hbelow := AppMonitor.check_alerts_below
        { (run_suspicious n).1 with
          metrics := record_metrics (run_suspicious n).1.metrics "u1"
            suspicious_medium_result 1 12 }
        (by simpa [AppMonitor.min_requests_for_alert, hmt] using h50)
      rw [hstep, AppMonitor.record_transaction_def, hbelow]
      refine ⟨hmt, hmf, ?_, ?_⟩
      · rw [ha]
        simp only [decide_eq_decide]
        omega
      · rw [hc]
        have h1 : ¬ 50 ≤ n := by omega
        have h2 : ¬ 50 ≤ n + 1 := by omega
        simp [h1, h2]
    · have hge : 50 ≤ n + 1 := by omega
      have hrate : 3/20 <
          ((record_metrics (run_suspicious n).1.metrics "u1"
              suspicious_medium_result 1 12).fraud_detected : ℚ) /
            ((record_metrics (run_suspicious n).1.metrics "u1"
              suspicious_medium_result 1 12).total_requests : ℚ) := by
        rw [hmt, hmf, div_self (by positivity)]
        norm_num
      by_cases h50p : 50 ≤ n
      · have hrefire := AppMonitor.check_alerts_no_refire
          { (run_suspicious n).1 with
            metrics := record_metrics (run_suspicious n).1.metrics "u1"
              suspicious_medium_result 1 12 }
          (by simpa [AppMonitor.min_requests_for_alert, hmt] using hge) hrate
          (by simpa [ha] using h50p)
        rw [hstep, AppMonitor.record_transaction_def, hrefire]
        refine ⟨hmt, hmf, ?_, ?_⟩
        · rw [ha]
          simp
          omega
        · rw [hc]
          simp [h50p, hge]
      · have hfire := AppMonitor.check_alerts_first_fire
          { (run_suspicious n).1 with
            metrics := record_metrics (run_suspicious n).1.metrics "u1"
              suspicious_medium_result 1 12 }
          (by simpa [AppMonitor.min_requests_for_alert, hmt] using hge) hrate
          (by simpa [ha] using h50p)
        rw [hstep, AppMonitor.record_transaction_def, hfire]
        refine ⟨hmt, hmf, by simp [hge], ?_⟩
        rw [hc]
        simp [h50p, hge]

/-! Claim theorems. -/

/-- C1 counterexample: the claim says final_score = 0.5 yields MEDIUM,
but `detect_advanced_fraud` uses the strict comparison
`final_score > 0.5`, so a final score of exactly 0.5 is tiered LOW (and
not suspicious), consistent with the spec's own threshold table
`[0, 0.5] → LOW`. -/
theorem risk_tier_half_is_LOW_not_MEDIUM :
    (risk_level_of (1/2)).1 = RiskLevel.LOW ∧
    (risk_level_of (1/2)).1 ≠ RiskLevel.MEDIUM ∧
    (risk_level_of (1/2)).2 = false := by
  have h : risk_level_of (1/2) = (RiskLevel.LOW, false) := by
    norm_num [risk_level_of]
  refine ⟨by rw [h], by rw [h]; decide, by rw [h]⟩

/-- C1 (amended): the risk tier is assigned from final_score by the
fixed threshold table with strict lower bounds: 0.5 yields LOW (not
MEDIUM), 0.500001 yields MEDIUM, 0.7 yields MEDIUM, 0.700001 yields
HIGH, scores above 0.9 yield CRITICAL, scores in [0, 0.5] yield LOW,
and is_suspicious holds exactly when the tier is MEDIUM, HIGH or
CRITICAL. -/
theorem risk_tier_table :
    (risk_level_of (1/2)).1 = RiskLevel.LOW ∧
    (risk_level_of (500001/1000000)).1 = RiskLevel.MEDIUM ∧
    (risk_level_of (7/10)).1 = RiskLevel.MEDIUM ∧
    (risk_level_of (700001/1000000)).1 = RiskLevel.HIGH ∧
    (∀ q : ℚ, 9/10 < q → (risk_level_of q).1 = RiskLevel.CRITICAL) ∧
    (∀ q : ℚ, 0 ≤ q → q ≤ 1/2 → (risk_level_of q).1 = RiskLevel.LOW) ∧
    (∀ q : ℚ, (risk_level_of q).2 = true ↔
      (risk_level_of q).1 = RiskLevel.MEDIUM ∨ (risk_level_of q).1 = RiskLevel.HIGH ∨
        (risk_level_of q).1 = RiskLevel.CRITICAL) := by
  refine ⟨by norm_num [risk_level_of], by norm_num [risk_level_of],
    by norm_num [risk_level_of], by norm_num [risk_level_of], ?_, ?_, ?_⟩
  · intro q h
    unfold risk_level_of
    rw [if_pos h]
  · intro q h0 h
    unfold risk_level_of
    rw [if_neg (by linarith), if_neg (by linarith), if_neg (by linarith)]
  · intro q
    unfold risk_level_of
    split_ifs <;> simp

/-- C1 witness: 0.95 exceeds 0.9, and the tier there is CRITICAL. -/
theorem risk_tier_table_witness :
    (9 : ℚ)/10 < 19/20 ∧ (risk_level_of (19/20)).1 = RiskLevel.CRITICAL :=
  ⟨by norm_num, risk_tier_table.2.2.2.2.1 (19/20) (by norm_num)⟩

/-- C3: on the app.py monitor the high-fraud-rate alert is edge
triggered with a 50-request minimum: a record whose post-increment
request count is below 50 never fires; once 50 requests are reached,
`_check_alerts` fires exactly on an INACTIVE→ACTIVE transition
(rate above 0.15 with the flag down), is a silent no-op while the flag
is up, and silently clears the flag when the rate is at or below 0.15.
On the all-suspicious trace from the initial state, no fire happens in
the first 49 records, the 50th record fires, and the 51st does not
re-fire. -/
theorem high_fraud_rate_edge_triggered :
    (∀ s uid r pt wh, s.metrics.total_requests + 1 < 50 →
      (AppMonitor.record_transaction s uid r pt wh).2 = false) ∧
    (∀ s : MonitorState, 50 ≤ s.metrics.total_requests →
      3/20 < (s.metrics.fraud_detected : ℚ) / (s.metrics.total_requests : ℚ) →
      s.alerts.high_fraud_rate = false →
      AppMonitor.check_alerts s =
        ({ s with alerts := { s.alerts with high_fraud_rate := true } }, true)) ∧
    (∀ s : MonitorState, 50 ≤ s.metrics.total_requests →
      3/20 < (s.metrics.fraud_detected : ℚ) / (s.metrics.total_requests : ℚ) →
      s.alerts.high_fraud_rate = true →
      AppMonitor.check_alerts s = (s, false)) ∧
    (∀ s : MonitorState, 50 ≤ s.metrics.total_requests →
      (s.metrics.fraud_detected : ℚ) / (s.metrics.total_requests : ℚ) ≤ 3/20 →
      AppMonitor.check_alerts s =
        ({ s with alerts := { s.alerts with high_fraud_rate := false } }, false)) ∧
    (run_suspicious 49).2 = 0 ∧ (run_suspicious 50).2 = 1 ∧ (run_suspicious 51).2 = 1 := by
  refine ⟨?_, ?_, ?_, ?_, ?_, ?_, ?_⟩
  · intro s uid r pt wh h
    rw [AppMonitor.record_transaction_def]
    rw [AppMonitor.check_alerts_below]
    simp only [AppMonitor.min_requests_for_alert, record_metrics_total]
    omega
  · exact fun s h hr hf => AppMonitor.check_alerts_first_fire s h hr hf
  · exact fun s h hr hf => AppMonitor.check_alerts_no_refire s h hr hf
  · exact fun s h hr => AppMonitor.check_alerts_clear s h hr
  · rw [(run_suspicious_spec 49).2.2.2]
    norm_num
  · rw [(run_suspicious_spec 50).2.2.2]
    norm_num
  · rw [(run_suspicious_spec 51).2.2.2]
    norm_num

/-- C3 witness: from the initial monitor state (one request, below the
minimum of 50), recording a suspicious transaction does not fire. -/
theorem high_fraud_rate_edge_triggered_witness :
    initial_monitor.metrics.total_requests + 1 < 50 ∧
    (AppMonitor.record_transaction initial_monitor "u1"
      suspicious_medium_result 1 12).2 = false := by
  refine ⟨by norm_num [initial_monitor], ?_⟩
  exact high_fraud_rate_edge_triggered.1 initial_monitor "u1" suspicious_medium_result 1 12
    (by norm_num [initial_monitor])

theorem UtilsMonitor.fraudStep_metrics (s : MonitorState) :
    (UtilsMonitor.fraudStep s).1.metrics = s.metrics := by
  unfold UtilsMonitor.fraudStep
  split_ifs <;> rfl

theorem UtilsMonitor.fraudStep_slow (s : MonitorState) :
    (UtilsMonitor.fraudStep s).1.alerts.slow_response = s.alerts.slow_response := by
  unfold UtilsMonitor.fraudStep
  split_ifs <;> rfl

theorem UtilsMonitor.fraudStep_errors (s : MonitorState) :
    (UtilsMonitor.fraudStep s).1.alerts.model_errors = s.alerts.model_errors := by
  unfold UtilsMonitor.fraudStep
  split_ifs <;> rfl

theorem UtilsMonitor.slowStep_metrics (s : MonitorState) :
    (UtilsMonitor.slowStep s).1.metrics = s.metrics := by
  unfold UtilsMonitor.slowStep
  split_ifs <;> rfl

theorem UtilsMonitor.slowStep_errors (s : MonitorState) :
    (UtilsMonitor.slowStep s).1.alerts.model_errors = s.alerts.model_errors := by
  unfold UtilsMonitor.slowStep
  split_ifs <;> rfl

theorem UtilsMonitor.slowStep_flag (s : MonitorState)
    (h : 50 < s.metrics.processing_times.length) :
    ((UtilsMonitor.slowStep s).1.alerts.slow_response = true ↔
      200 < avgLast50 s.metrics.processing_times) := by
  unfold UtilsMonitor.slowStep
  rw [if_pos h]
  split_ifs with havg hflag <;> simp_all

theorem UtilsMonitor.errorStep_metrics (s : MonitorState) :
    (UtilsMonitor.errorStep s).1.metrics = s.metrics := by
  unfold UtilsMonitor.errorStep
  split_ifs <;> rfl

theorem UtilsMonitor.errorStep_slow (s : MonitorState) :
    (UtilsMonitor.errorStep s).1.alerts.slow_response = s.alerts.slow_response := by
  unfold UtilsMonitor.errorStep
  split_ifs <;> rfl

theorem UtilsMonitor.errorStep_flag (s : MonitorState) :
    ((UtilsMonitor.errorStep s).1.alerts.model_errors = true ↔
      1/20 < (s.metrics.error_count : ℚ) / (s.metrics.total_requests : ℚ)) := by
  unfold UtilsMonitor.errorStep
  split_ifs with hrate hflag <;> simp_all

/-- Combined description of the three alert blocks of
utils/monitoring.py once the 100-request minimum is reached and the
window holds more than 50 entries: metrics untouched, the slow-response
flag tracks the average of the most recent 50 processing times, and the
model-errors flag tracks the error rate. -/
theorem UtilsMonitor.check_alerts_flags (s : MonitorState)
    (htot : UtilsMonitor.min_requests_for_alert ≤ s.metrics.total_requests)
    (hlen : 50 < s.metrics.processing_times.length) :
    (UtilsMonitor.check_alerts s).1.metrics = s.metrics ∧
    ((UtilsMonitor.check_alerts s).1.alerts.slow_response = true ↔
      200 < avgLast50 s.metrics.processing_times) ∧
    ((UtilsMonitor.check_alerts s).1.alerts.model_errors = true ↔
      1/20 < (s.metrics.error_count : ℚ) / (s.metrics.total_requests : ℚ)) := by
  unfold UtilsMonitor.check_alerts
  rw [if_neg (by omega)]
  refine ⟨?_, ?_, ?_⟩
  · simp only [UtilsMonitor.errorStep_metrics, UtilsMonitor.slowStep_metrics,
      UtilsMonitor.fraudStep_metrics]
  · rw [UtilsMonitor.errorStep_slow,
      UtilsMonitor.slowStep_flag _ (by
        rw [UtilsMonitor.fraudStep_metrics]
        exact hlen),
      UtilsMonitor.fraudStep_metrics]
  · rw [UtilsMonitor.errorStep_flag, UtilsMonitor.slowStep_metrics,
      UtilsMonitor.fraudStep_metrics]

/-- Appending to a window already holding at least 50 entries leaves
more than 50 entries. -/
theorem dequeAppend_length_gt (w : List ℚ) (x : ℚ) (h : 50 ≤ w.length) :
    50 < (dequeAppend 1000 w x).length := by
  unfold dequeAppend
  split_ifs <;> simp <;> omega

/-- The rolling processing-time window respects its capacity of 1000. -/
theorem dequeAppend_length_le (w : List ℚ) (x : ℚ) (h : w.length ≤ 1000) :
    (dequeAppend 1000 w x).length ≤ 1000 := by
  unfold dequeAppend
  split_ifs with hlt
  · simp
    omega
  · simp
    omega

theorem UtilsMonitor.record_transaction_expand (s : MonitorState) (uid : String) (r : FraudResult)
    (pt : ℚ) (wh : ℕ) :
    UtilsMonitor.record_transaction s uid r pt wh =
      UtilsMonitor.check_alerts
        { s with metrics := record_metrics s.metrics uid r pt wh } := rfl

theorem UtilsMonitor.record_error_eq (s : MonitorState) :
    UtilsMonitor.record_error s =
      UtilsMonitor.check_alerts
        { s with metrics := { s.metrics with error_count := s.metrics.error_count + 1 } } := rfl

/-- C4 counterexample: the monitor the service instantiates is the one
defined inline in app.py, whose `_check_alerts` evaluates only the
fraud-rate condition.  From a state with 100 requests, a 1000 ms
average over the most recent 50 processing times and an error on every
request, `record_error` leaves both the slow-response and the
model-errors flags down even though both claimed conditions hold. -/
theorem app_monitor_ignores_slow_and_error_alerts :
    (200 : ℚ) < avgLast50 (AppMonitor.record_error stressed_state).1.metrics.processing_times ∧
    (1 : ℚ)/20 < ((AppMonitor.record_error stressed_state).1.metrics.error_count : ℚ) /
      ((AppMonitor.record_error stressed_state).1.metrics.total_requests : ℚ) ∧
    (AppMonitor.record_error stressed_state).1.alerts.slow_response = false ∧
    (AppMonitor.record_error stressed_state).1.alerts.model_errors = false := by
  have hclear := AppMonitor.check_alerts_clear
    { stressed_state with
      metrics := { stressed_state.metrics with
        error_count := stressed_state.metrics.error_count + 1 } }
    (by norm_num [stressed_state, AppMonitor.min_requests_for_alert])
    (by norm_num [stressed_state])
  unfold AppMonitor.record_error
  rw [hclear]
  refine ⟨?_, ?_, rfl, rfl⟩
  · show (200 : ℚ) < avgLast50 (List.replicate 51 1000)
    simp [avgLast50, List.drop_replicate, List.sum_replicate]
    norm_num
  · show (1 : ℚ)/20 < ((100 + 1 : ℕ) : ℚ) / ((100 : ℕ) : ℚ)
    norm_num

/-- C4 (amended): the alert conditions the claim describes are those of
the `FraudGuardMonitor` in utils/monitoring.py (the app.py monitor the
service instantiates checks only the fraud rate).  There, once the
100-request minimum is reached and the window holds at least 50/more
than 50 entries, after any `record_transaction` or `record_error` the
slow-response flag is up exactly when the average of the most recent 50
processing times exceeds 200 ms, and the model-errors flag is up
exactly when error_count/total_requests exceeds 0.05. -/
theorem utils_monitor_alert_conditions :
    (∀ s uid r pt wh,
      UtilsMonitor.min_requests_for_alert ≤ s.metrics.total_requests + 1 →
      50 ≤ s.metrics.processing_times.length →
      (((UtilsMonitor.record_transaction s uid r pt wh).1.alerts.slow_response = true ↔
        200 < avgLast50 (dequeAppend 1000 s.metrics.processing_times pt)) ∧
       ((UtilsMonitor.record_transaction s uid r pt wh).1.alerts.model_errors = true ↔
        1/20 < (s.metrics.error_count : ℚ) / ((s.metrics.total_requests + 1 : ℕ) : ℚ)))) ∧
    (∀ s : MonitorState,
      UtilsMonitor.min_requests_for_alert ≤ s.metrics.total_requests →
      50 < s.metrics.processing_times.length →
      (((UtilsMonitor.record_error s).1.alerts.slow_response = true ↔
        200 < avgLast50 s.metrics.processing_times) ∧
       ((UtilsMonitor.record_error s).1.alerts.model_errors = true ↔
        1/20 < ((s.metrics.error_count + 1 : ℕ) : ℚ) / (s.metrics.total_requests : ℚ)))) := by
  constructor
  · intro s uid r pt wh htot hlen
    rw [UtilsMonitor.record_transaction_expand]
    have hflags := UtilsMonitor.check_alerts_flags
      { s with metrics := record_metrics s.metrics uid r pt wh }
      (by
        show UtilsMonitor.min_requests_for_alert ≤
          (record_metrics s.metrics uid r pt wh).total_requests
        rw [record_metrics_total]
        exact htot)
      (by
        show 50 < (record_metrics s.metrics uid r pt wh).processing_times.length
        rw [record_metrics_times]
        exact dequeAppend_length_gt _ _ hlen)
    obtain ⟨-, hslow, herr⟩ := hflags
    constructor
    · rw [hslow]
      show 200 < avgLast50 (record_metrics s.metrics uid r pt wh).processing_times ↔ _
      rw [record_metrics_times]
    · rw [herr]
      show (1 : ℚ)/20 < ((record_metrics s.metrics uid r pt wh).error_count : ℚ) /
          ((record_metrics s.metrics uid r pt wh).total_requests : ℚ) ↔ _
      rw [record_metrics_error, record_metrics_total]
  · intro s htot hlen
    rw [UtilsMonitor.record_error_eq]
    have hflags := UtilsMonitor.check_alerts_flags
      { s with metrics := { s.metrics with error_count := s.metrics.error_count + 1 } }
      htot hlen
    obtain ⟨-, hslow, herr⟩ := hflags
    exact ⟨hslow, herr⟩

/-- C4 witness: one record past `utils_stress_state` (99 requests, 99
errors, 50 slow processing times) raises both the slow-response and the
model-errors flags on the utils/monitoring.py monitor. -/
theorem utils_monitor_alert_conditions_witness :
    (UtilsMonitor.record_transaction utils_stress_state "u1"
      high_risk_result 1000 12).1.alerts.slow_response = true ∧
    (UtilsMonitor.record_transaction utils_stress_state "u1"
      high_risk_result 1000 12).1.alerts.model_errors = true := by
  have h := utils_monitor_alert_conditions.1 utils_stress_state "u1" high_risk_result 1000 12
    (by norm_num [utils_stress_state, UtilsMonitor.min_requests_for_alert])
    (by norm_num [utils_stress_state])
  refine ⟨h.1.mpr ?_, h.2.mpr ?_⟩
  · show (200 : ℚ) < avgLast50 (dequeAppend 1000 (List.replicate 50 1000) 1000)
    have : dequeAppend 1000 (List.replicate 50 1000) (1000 : ℚ) =
        List.replicate 51 1000 := by
      rw [dequeAppend, if_pos (by simp), ← List.replicate_succ']
    rw [this]
    simp [avgLast50, List.drop_replicate, List.sum_replicate]
    norm_num
  · show (1 : ℚ)/20 < ((99 : ℕ) : ℚ) / ((99 + 1 : ℕ) : ℚ)
    norm_num

/-- C5 counterexample: the app.py `high_risk_transactions` list is a
plain Python list with no eviction, so no fixed capacity bounds it —
after `n` HIGH-risk records it holds exactly `n` entries, for every
`n`. -/
theorem high_risk_list_unbounded :
    ¬ ∃ C, ∀ n, ((run_high_risk n).metrics.high_risk_transactions).length ≤ C := by
  rintro ⟨C, hC⟩
  have h := hC (C + 1)
  rw [run_high_risk_length] at h
  omega

/-- C5 (amended): `record_transaction` appends an incident entry exactly
when the recorded result is suspicious with tier HIGH or CRITICAL (for
every result produced by the tiering cascade, HIGH or CRITICAL implies
suspicious, so on detect output this is exactly "tier is HIGH or
CRITICAL"); the incident list itself is unbounded (length `n` after `n`
high-risk records); the bounded structure is the processing-time
window, which never exceeds its capacity of 1000. -/
theorem record_transaction_high_risk_incidents :
    (∀ s uid r pt wh,
      (AppMonitor.record_transaction s uid r pt wh).1.metrics.high_risk_transactions =
        (if r.is_suspicious ∧ r.risk_level ∈ [RiskLevel.HIGH, RiskLevel.CRITICAL] then
          s.metrics.high_risk_transactions ++
            [{ user_id := uid, risk_level := r.risk_level, anomaly_score := r.anomaly_score }]
        else s.metrics.high_risk_transactions)) ∧
    (∀ q : ℚ, (risk_level_of q).1 ∈ [RiskLevel.HIGH, RiskLevel.CRITICAL] →
      (risk_level_of q).2 = true) ∧
    (∀ n, ((run_high_risk n).metrics.high_risk_transactions).length = n) ∧
    (∀ s uid r pt wh, s.metrics.processing_times.length ≤ 1000 →
      (AppMonitor.record_transaction s uid r pt wh).1.metrics.processing_times.length ≤ 1000) := by
  refine ⟨?_, ?_, run_high_risk_length, ?_⟩
  · intro s uid r pt wh
    rw [AppMonitor.record_transaction_def, AppMonitor.check_alerts_metrics]
    exact record_metrics_high_risk _ _ _ _ _
  · intro q h
    unfold risk_level_of at *
    split_ifs at * <;> simp_all
  · intro s uid r pt wh h
    rw [AppMonitor.record_transaction_def, AppMonitor.check_alerts_metrics,
      record_metrics_times]
    exact dequeAppend_length_le _ _ h

/-- C5 witness: from the empty initial window, one record keeps the
window within its capacity. -/
theorem record_transaction_high_risk_incidents_witness :
    initial_monitor.metrics.processing_times.length ≤ 1000 ∧
    (AppMonitor.record_transaction initial_monitor "u1"
      high_risk_result 1 12).1.metrics.processing_times.length ≤ 1000 := by
  refine ⟨by norm_num [initial_monitor], ?_⟩
  exact record_transaction_high_risk_incidents.2.2.2 initial_monitor "u1" high_risk_result 1 12
    (by norm_num [initial_monitor])

/-- C6: the rule score is additive over the five heuristics of
`_apply_business_rules` and clamped to [0, 1]; at amount 12000, hour 2,
category "jewelry", day 6 with profile average 100, it equals 1. -/
theorem business_rules_additive :
    (∀ t p, apply_business_rules t p =
      min 1 ((if 5000 < t.amount then (3 : ℚ)/10 else 0) +
        (if p.avg_amount * 10 < t.amount then 4/10 else 0) +
        (if t.hour ∈ [0, 1, 2, 3, 4, 5] then 1/5 else 0) +
        (if t.merchant_category ∈ ["electronics", "jewelry", "travel", "cash_advance"] then
          (1 : ℚ)/5 else 0) +
        (if t.day_of_week ∈ [5, 6] ∧ t.hour ∈ [22, 23, 0, 1, 2] then (3 : ℚ)/20 else 0))) ∧
    (∀ t p, 0 ≤ apply_business_rules t p ∧ apply_business_rules t p ≤ 1) ∧
    apply_business_rules
      { amount := 12000, merchant_category := "jewelry", hour := 2, day_of_week := 6 }
      { user_id := "u", total_transactions := 15, avg_amount := 100 } = 1 := by
  refine ⟨?_, ?_, by norm_num [apply_business_rules]⟩
  · intro t p
    simp only [apply_business_rules]
    split_ifs <;> norm_num
  · intro t p
    simp only [apply_business_rules]
    refine ⟨le_min (by norm_num) ?_, min_le_left _ _⟩
    split_ifs <;> norm_num

/-- C2: for a trained user, the final score (the `combined` entry of
`model_scores`, the code's `final_score`) is the 0.7/0.3 blend of the
normalized anomaly score and the rule score when no ensemble prediction
is available, and is exactly the ensemble score when the ensemble flag
is set and the prediction produced a value — the blend is replaced
entirely. -/
theorem score_fusion_policy (st : EngineState) (uid : String) (iso : ℚ) (etr : Bool)
    (pred : Option ℚ) (t : Transaction) (mon : MonitorState) (wh : ℕ) (pt : ℚ)
    (p : Profile) (hp : lookupProfile st uid = some p) :
    ((etr = false ∨ pred = none) →
      ((detect_advanced_fraud st uid iso etr pred t mon wh pt).1.model_scores.map
        ModelScores.combined) =
        some (max 0 (min 1 (1/2 - iso)) * (7/10) + apply_business_rules t p * (3/10))) ∧
    (∀ e, etr = true → pred = some e →
      ((detect_advanced_fraud st uid iso etr pred t mon wh pt).1.model_scores.map
        ModelScores.combined) = some e) := by
  constructor
  · rintro (h | h) <;> simp [detect_advanced_fraud, hp, h]
  · intro e he hpred
    simp [detect_advanced_fraud, hp, he, hpred]

/-- C2 witness: with the ensemble unavailable, the fused score of a
concrete detection is the 0.7/0.3 blend. -/
theorem score_fusion_policy_witness :
    lookupProfile st_one "u1" = some profile0 ∧
    ((detect_advanced_fraud st_one "u1" (1/10) false none tx_normal
        initial_monitor 12 1).1.model_scores.map ModelScores.combined) =
      some (max 0 (min 1 (1/2 - 1/10)) * (7/10) +
        apply_business_rules tx_normal profile0 * (3/10)) := by
  have hp : lookupProfile st_one "u1" = some profile0 := by
    simp [lookupProfile, st_one]
  exact ⟨hp, (score_fusion_policy st_one "u1" (1/10) false none tx_normal
    initial_monitor 12 1 profile0 hp).1 (Or.inl rfl)⟩

/-- C7: training succeeds with exactly 15 transactions, registering the
user's profile; with 14 or fewer it fails with the insufficient-data
client error (HTTP 400 in the source), and only the success branch
extends the registry. -/
theorem training_minimum_requirement (st : EngineState) (uid : String)
    (txs : List Transaction) :
    (txs.length = 15 →
      train_user_model st uid txs =
        Except.ok { models := (uid, create_comprehensive_profile uid txs) :: st.models } ∧
      (∀ st', train_user_model st uid txs = Except.ok st' →
        lookupProfile st' uid = some (create_comprehensive_profile uid txs))) ∧
    (txs.length ≤ 14 →
      train_user_model st uid txs = Except.error TrainError.insufficientData) := by
  constructor
  · intro h15
    have hok : train_user_model st uid txs =
        Except.ok { models := (uid, create_comprehensive_profile uid txs) :: st.models } := by
      unfold train_user_model
      rw [if_neg (by omega)]
    refine ⟨hok, ?_⟩
    intro st' hst'
    rw [hok] at hst'
    cases hst'
    simp [lookupProfile]
  · intro h14
    unfold train_user_model
    rw [if_pos (by omega)]

/-- C7 witness: 15 copies of a valid transaction train successfully and
register the user; 14 copies are rejected with the insufficient-data
error. -/
theorem training_minimum_requirement_witness :
    (List.replicate 15 tx_normal).length = 15 ∧
    train_user_model st_empty "u1" (List.replicate 15 tx_normal) =
      Except.ok { models :=
        ("u1", create_comprehensive_profile "u1" (List.replicate 15 tx_normal)) ::
          st_empty.models } ∧
    (List.replicate 14 tx_normal).length ≤ 14 ∧
    train_user_model st_empty "u1" (List.replicate 14 tx_normal) =
      Except.error TrainError.insufficientData := by
  refine ⟨by simp, ?_, by simp, ?_⟩
  · exact ((training_minimum_requirement st_empty "u1"
      (List.replicate 15 tx_normal)).1 (by simp)).1
  · exact (training_minimum_requirement st_empty "u1"
      (List.replicate 14 tx_normal)).2 (by simp)

/-- C8: for a user with no trained model, detection returns the
well-formed early result — tier UNKNOWN, not suspicious, anomaly score
0, confidence 0.  The embedded `detect_advanced_fraud` is a total
function, mirroring that the source path raises nothing. -/
theorem untrained_user_result (st : EngineState) (uid : String) (iso : ℚ) (etr : Bool)
    (pred : Option ℚ) (t : Transaction) (mon : MonitorState) (wh : ℕ) (pt : ℚ)
    (hp : lookupProfile st uid = none) :
    (detect_advanced_fraud st uid iso etr pred t mon wh pt).1.risk_level =
      RiskLevel.UNKNOWN ∧
    (detect_advanced_fraud st uid iso etr pred t mon wh pt).1.is_suspicious = false ∧
    (detect_advanced_fraud st uid iso etr pred t mon wh pt).1.anomaly_score = 0 ∧
    (detect_advanced_fraud st uid iso etr pred t mon wh pt).1.confidence = 0 := by
  simp [detect_advanced_fraud, hp, unknown_user_result]

/-- C8 witness: detecting against an empty registry yields the UNKNOWN
result. -/
theorem untrained_user_result_witness :
    lookupProfile st_empty "nobody" = none ∧
    (detect_advanced_fraud st_empty "nobody" 0 false none tx_normal
      initial_monitor 12 1).1.risk_level = RiskLevel.UNKNOWN := by
  refine ⟨rfl, ?_⟩
  exact (untrained_user_result st_empty "nobody" 0 false none tx_normal
    initial_monitor 12 1 rfl).1

/-- C9: for a trained user, the `anomaly_score` field of the result is
the fused final score — identical to `model_scores.combined` — not the
isolation model's normalized score, which is exposed only as
`model_scores.isolation_forest`; on a concrete detection the two
values differ. -/
theorem anomaly_score_is_fused_score (st : EngineState) (uid : String) (iso : ℚ)
    (etr : Bool) (pred : Option ℚ) (t : Transaction) (mon : MonitorState) (wh : ℕ)
    (pt : ℚ) (p : Profile) (hp : lookupProfile st uid = some p) :
    ((detect_advanced_fraud st uid iso etr pred t mon wh pt).1.model_scores.map
      ModelScores.combined) =
      some (detect_advanced_fraud st uid iso etr pred t mon wh pt).1.anomaly_score ∧
    ((detect_advanced_fraud st uid iso etr pred t mon wh pt).1.model_scores.map
      ModelScores.isolation_forest) = some (max 0 (min 1 (1/2 - iso))) ∧
    (detect_advanced_fraud st_one "u1" (1/10) false none tx_risky
      initial_monitor 12 1).1.anomaly_score ≠ max 0 (min 1 (1/2 - (1/10 : ℚ))) := by
  refine ⟨by simp [detect_advanced_fraud, hp], by simp [detect_advanced_fraud, hp], ?_⟩
  have hp1 : lookupProfile st_one "u1" = some profile0 := by
    simp [lookupProfile, st_one]
  simp [detect_advanced_fraud, hp1]
  norm_num [apply_business_rules, tx_risky, profile0]

/-- C9 witness: at a concrete trained detection the anomaly_score field
coincides with model_scores.combined. -/
theorem anomaly_score_is_fused_score_witness :
    ((detect_advanced_fraud st_one "u1" (1/10) false none tx_normal
      initial_monitor 12 1).1.model_scores.map ModelScores.combined) =
      some (detect_advanced_fraud st_one "u1" (1/10) false none tx_normal
        initial_monitor 12 1).1.anomaly_score := by
  exact (anomaly_score_is_fused_score st_one "u1" (1/10) false none tx_normal
    initial_monitor 12 1 profile0 (by simp [lookupProfile, st_one])).1

/-- C10: a detect call for a user with no trained model returns before
`monitor.record_transaction`, so the whole monitoring state — request
and fraud counters, processing-time window, hourly and per-user
counters, and alert flags — is exactly the state passed in. -/
theorem untrained_user_monitor_frame (st : EngineState) (uid : String) (iso : ℚ)
    (etr : Bool) (pred : Option ℚ) (t : Transaction) (mon : MonitorState) (wh : ℕ)
    (pt : ℚ) (hp : lookupProfile st uid = none) :
    (detect_advanced_fraud st uid iso etr pred t mon wh pt).2 = mon ∧
    (detect_advanced_fraud st uid iso etr pred t mon wh pt).2.metrics.total_requests =
      mon.metrics.total_requests ∧
    (detect_advanced_fraud st uid iso etr pred t mon wh pt).2.metrics.fraud_detected =
      mon.metrics.fraud_detected ∧
    (detect_advanced_fraud st uid iso etr pred t mon wh pt).2.metrics.processing_times =
      mon.metrics.processing_times ∧
    (detect_advanced_fraud st uid iso etr pred t mon wh pt).2.metrics.hourly_requests =
      mon.metrics.hourly_requests ∧
    (detect_advanced_fraud st uid iso etr pred t mon wh pt).2.metrics.hourly_fraud =
      mon.metrics.hourly_fraud ∧
    (detect_advanced_fraud st uid iso etr pred t mon wh pt).2.metrics.user_activity =
      mon.metrics.user_activity ∧
    (detect_advanced_fraud st uid iso etr pred t mon wh pt).2.alerts = mon.alerts := by
  have h : (detect_advanced_fraud st uid iso etr pred t mon wh pt).2 = mon := by
    simp [detect_advanced_fraud, hp]
  rw [h]
  exact ⟨rfl, rfl, rfl, rfl, rfl, rfl, rfl, rfl⟩

/-- C10 witness: an untrained detect against a non-trivial monitor state
leaves it untouched. -/
theorem untrained_user_monitor_frame_witness :
    lookupProfile st_empty "nobody" = none ∧
    (detect_advanced_fraud st_empty "nobody" 0 false none tx_normal
      stressed_state 12 1).2 = stressed_state := by
  refine ⟨rfl, ?_⟩
  exact (untrained_user_monitor_frame st_empty "nobody" 0 false none tx_normal
    stressed_state 12 1 rfl).1

end FraudGuard
